import Mathlib

/-
Verification development for the cropai dashboard frontend.

Embedded components:
- response cache (lib/api/cache.ts, class APICache over localStorage);
- request fingerprints (APICache.getCacheKey plus the URLSearchParams-built
  query strings of lib/api/client.ts and store/dashboardStore.ts);
- dashboard store state and its transitions (store/dashboardStore.ts:
  setSelectedFarm, setSelectedCrop, findNearestFarm, and the cache-first /
  fresh-background completion handlers of loadSoilMoisture,
  loadYieldPrediction, loadCarbonMetrics, loadKPISummary);
- the map rendering helpers of components/dashboard/FarmMap.tsx
  (gridToGeoJSON, getNDVIColor, getStressColor).

Conventions: JavaScript numbers are embedded as exact rationals, times as
integer milliseconds. The transcendental kernel of the haversine formula
(Math.sin, Math.cos, Math.sqrt, Math.atan2, Math.PI) is abstracted as an
oracle bundle so that the surrounding selection logic is proved for every
evaluation of those functions. JavaScript Map objects are embedded as
association lists with overwrite-in-place semantics.
-/

namespace CropAI

/-! ## Response cache (lib/api/cache.ts) -/

/-- Namespacing prefix for cache keys (constant CACHE_PREFIX). -/
def cachePrefixStr : String := "cropai_cache_"

/-- Default time-to-live in milliseconds: 7 days (constant CACHE_TTL_MS). -/
def cacheTTLms : ℕ := 7 * 24 * 60 * 60 * 1000

/-- A stored cache entry: data, store timestamp, absolute expiry (interface CacheEntry). -/
structure CacheEntry (α : Type) where
  data : α
  timestamp : ℕ
  expiresAt : ℕ
deriving DecidableEq

/-- The cache-owned portion of localStorage: an association of keys to entries plus a
capacity bounding how many entries fit (the storage quota).  Keys outside the cache
prefix are not modelled; the source only ever touches prefixed keys. -/
structure LocalStorage (α : Type) where
  items : List (String × CacheEntry α)
  capacity : ℕ
deriving DecidableEq

/-- APICache.getCacheKey: the cache key is the prefix concatenated with the endpoint
string verbatim; no normalization or sorting of query parameters happens here. -/
def getCacheKey (endpoint : String) : String := cachePrefixStr ++ endpoint

/-- Lookup in an association list (JavaScript Map.get / localStorage.getItem). -/
def mapGet {β : Type} (m : List (String × β)) (k : String) : Option β :=
  (m.find? (fun p => p.1 == k)).map Prod.snd

/-- Overwrite-or-append write in an association list (JavaScript Map.set). -/
def mapSet {β : Type} (m : List (String × β)) (k : String) (v : β) : List (String × β) :=
  if m.any (fun p => p.1 == k) then m.map (fun p => if p.1 == k then (k, v) else p)
  else m ++ [(k, v)]

def lookupEntry {α : Type} (s : LocalStorage α) (k : String) : Option (CacheEntry α) :=
  mapGet s.items k

/-- localStorage.removeItem. -/
def removeItem {α : Type} (s : LocalStorage α) (k : String) : LocalStorage α :=
  { s with items := s.items.filter (fun p => !(p.1 == k)) }

/-- localStorage.setItem under a quota: overwriting an existing key succeeds; adding a
new key fails (the exception APICache.set catches) when the store is at capacity. -/
def setItem {α : Type} (s : LocalStorage α) (k : String) (e : CacheEntry α) :
    Option (LocalStorage α) :=
  if s.items.any (fun p => p.1 == k) then
    some { s with items := s.items.map (fun p => if p.1 == k then (k, e) else p) }
  else if s.items.length < s.capacity then
    some { s with items := s.items ++ [(k, e)] }
  else none

/-- APICache.get: miss on an absent key; if now is past the expiry the entry is removed
and the read is a miss; otherwise the stored data is returned.  The result pairs the
returned value with the storage afterwards. -/
def cacheGet {α : Type} (s : LocalStorage α) (now : ℕ) (endpoint : String) :
    Option α × LocalStorage α :=
  match lookupEntry s (getCacheKey endpoint) with
  | none => (none, s)
  | some e =>
    if e.expiresAt < now then (none, removeItem s (getCacheKey endpoint))
    else (some e.data, s)

/-- APICache.clearExpired: drop every entry whose expiry is strictly before now. -/
def clearExpired {α : Type} (s : LocalStorage α) (now : ℕ) : LocalStorage α :=
  { s with items := s.items.filter (fun p => !decide (p.2.expiresAt < now)) }

/-- APICache.set: store the value with timestamp now and expiry now + ttl.  When the
underlying write throws (storage full), the catch handler runs clearExpired and
returns: the write is not retried and no error is raised to the caller. -/
def cacheSet {α : Type} (s : LocalStorage α) (now : ℕ) (endpoint : String) (data : α)
    (ttlMs : ℕ) : LocalStorage α :=
  match setItem s (getCacheKey endpoint) ⟨data, now, now + ttlMs⟩ with
  | some s2 => s2
  | none => clearExpired s now

/-! ## Request fingerprints -/

/-- URLSearchParams.toString(): query parameters are serialized in insertion order. -/
def serializeParams (ps : List (String × String)) : String :=
  String.intercalate "&" (ps.map (fun p => p.1 ++ "=" ++ p.2))

/-- The cache key of a GET request as built by the callers: endpoint path, a question
mark, and the query string in insertion order, all under the cache prefix. -/
def requestCacheKey (path : String) (ps : List (String × String)) : String :=
  getCacheKey (path ++ "?" ++ serializeParams ps)

/-! ## Association-list lemmas -/

theorem mapGet_overwrite {β : Type} (m : List (String × β)) (k : String) (v : β)
    (h : m.any (fun p => p.1 == k) = true) :
    mapGet (m.map (fun p => if p.1 == k then (k, v) else p)) k = some v := by
  induction m with
  | nil => simp at h
  | cons p m ih =>
    rw [List.map_cons]
    by_cases hp : (p.1 == k) = true
    · rw [if_pos hp]
      unfold mapGet
      rw [List.find?_cons_of_pos _ (by simp)]
      rfl
    · rw [if_neg hp]
      have h2 : m.any (fun p => p.1 == k) = true := by
        simp only [List.any_cons, Bool.or_eq_true] at h
        rcases h with h | h
        · exact absurd h hp
        · exact h
      unfold mapGet
      have hstep : List.find? (fun q : String × β => q.1 == k)
          (p :: m.map (fun q => if q.1 == k then (k, v) else q)) =
          List.find? (fun q => q.1 == k) (m.map (fun q => if q.1 == k then (k, v) else q)) :=
        List.find?_cons_of_neg _ hp
      rw [hstep]
      exact ih h2

theorem mapGet_append_new {β : Type} (m : List (String × β)) (k : String) (v : β)
    (h : m.any (fun p => p.1 == k) = false) :
    mapGet (m ++ [(k, v)]) k = some v := by
  induction m with
  | nil =>
    unfold mapGet
    rw [List.nil_append, List.find?_cons_of_pos _ (by simp)]
    rfl
  | cons p m ih =>
    rw [List.any_cons] at h
    have hp : (p.1 == k) = false := by
      cases hpk : (p.1 == k)
      · rfl
      · rw [hpk] at h
        simp at h
    have h2 : m.any (fun p => p.1 == k) = false := by
      cases hm : m.any (fun p => p.1 == k)
      · rfl
      · rw [hm, hp] at h
        simp at h
    rw [List.cons_append]
    unfold mapGet
    have hstep : List.find? (fun q : String × β => q.1 == k) (p :: (m ++ [(k, v)])) =
        List.find? (fun q => q.1 == k) (m ++ [(k, v)]) :=
      List.find?_cons_of_neg _ (by rw [hp]; exact Bool.false_ne_true)
    rw [hstep]
    exact ih h2

theorem mapGet_mapSet_self {β : Type} (m : List (String × β)) (k : String) (v : β) :
    mapGet (mapSet m k v) k = some v := by
  cases h : m.any (fun p => p.1 == k) with
  | true => simpa [mapSet, h] using mapGet_overwrite m k v h
  | false => simpa [mapSet, h] using mapGet_append_new m k v h

theorem mapGet_erase {β : Type} (m : List (String × β)) (k : String) :
    mapGet (m.filter (fun p => !(p.1 == k))) k = none := by
  induction m with
  | nil => rfl
  | cons p m ih =>
    by_cases hp : (p.1 == k) = true
    · simp only [List.filter_cons, hp, Bool.not_true]
      exact ih
    · have hp2 : (p.1 == k) = false := by
        cases hpk : (p.1 == k)
        · rfl
        · exact absurd hpk hp
      simp only [List.filter_cons, hp2, Bool.not_false, if_true]
      unfold mapGet
      have hstep : List.find? (fun q : String × β => q.1 == k)
          (p :: m.filter (fun q => !(q.1 == k))) =
          List.find? (fun q => q.1 == k) (m.filter (fun q => !(q.1 == k))) :=
        List.find?_cons_of_neg _ (by rw [hp2]; exact Bool.false_ne_true)
      rw [hstep]
      exact ih

theorem lookupEntry_setItem {α : Type} (s : LocalStorage α) (k : String) (e : CacheEntry α)
    (s2 : LocalStorage α) (h : setItem s k e = some s2) : lookupEntry s2 k = some e := by
  unfold setItem at h
  by_cases h1 : s.items.any (fun p => p.1 == k) = true
  · rw [if_pos h1] at h
    cases h
    exact mapGet_overwrite s.items k e h1
  · have h1f : s.items.any (fun p => p.1 == k) = false := by
      cases hx : s.items.any (fun p => p.1 == k)
      · rfl
      · exact absurd hx h1
    rw [if_neg h1] at h
    by_cases h2 : s.items.length < s.capacity
    · rw [if_pos h2] at h
      cases h
      exact mapGet_append_new s.items k e h1f
    · rw [if_neg h2] at h
      cases h

/-! ## Claim C3: cache TTL -/

/-- Claim C3: for an entry stored with store time storedAt and time-to-live ttl, get
returns the stored value iff the current time is at most storedAt + ttl; strictly past
expiry, get misses, deletes the entry, and the entry is absent from the resulting
store. -/
theorem cache_ttl_spec {α : Type} (s : LocalStorage α) (endpoint : String) (data : α)
    (storedAt ttl t : ℕ)
    (h : lookupEntry s (getCacheKey endpoint) = some ⟨data, storedAt, storedAt + ttl⟩) :
    ((cacheGet s t endpoint).1 = some data ↔ t ≤ storedAt + ttl) ∧
    (storedAt + ttl < t →
      (cacheGet s t endpoint).1 = none ∧
      lookupEntry (cacheGet s t endpoint).2 (getCacheKey endpoint) = none) := by
  have hval : cacheGet s t endpoint =
      if storedAt + ttl < t then (none, removeItem s (getCacheKey endpoint))
      else (some data, s) := by
    unfold cacheGet
    rw [h]
  rw [hval]
  by_cases hlt : storedAt + ttl < t
  · have hnot : ¬ t ≤ storedAt + ttl := by omega
    rw [if_pos hlt]
    constructor
    · constructor
      · intro hc
        simp at hc
      · intro hc
        exact absurd hc hnot
    · intro _
      exact ⟨rfl, mapGet_erase s.items (getCacheKey endpoint)⟩
  · have hle : t ≤ storedAt + ttl := by omega
    rw [if_neg hlt]
    constructor
    · exact ⟨fun _ => hle, fun _ => rfl⟩
    · intro hc
      exact absurd hc hlt

/-- Concrete store holding one entry stored at time 100 with ttl 50. -/
def cacheStoreW : LocalStorage ℕ :=
  ⟨[("cropai_cache_/kpi?farm_id=f1", ⟨7, 100, 150⟩)], 10⟩

/-- Witness for claim C3: a read at time 120 hits, a read at time 151 misses and the
entry is gone from the resulting store. -/
theorem cache_ttl_witness :
    (cacheGet cacheStoreW 120 "/kpi?farm_id=f1").1 = some 7 ∧
    (cacheGet cacheStoreW 151 "/kpi?farm_id=f1").1 = none ∧
    lookupEntry (cacheGet cacheStoreW 151 "/kpi?farm_id=f1").2
      (getCacheKey "/kpi?farm_id=f1") = none := by
  have h : lookupEntry cacheStoreW (getCacheKey "/kpi?farm_id=f1") =
      some ⟨7, 100, 100 + 50⟩ := by decide
  exact ⟨(cache_ttl_spec cacheStoreW "/kpi?farm_id=f1" 7 100 50 120 h).1.mpr (by omega),
    ((cache_ttl_spec cacheStoreW "/kpi?farm_id=f1" 7 100 50 151 h).2 (by omega)).1,
    ((cache_ttl_spec cacheStoreW "/kpi?farm_id=f1" 7 100 50 151 h).2 (by omega)).2⟩

/-! ## Claim C8: set under a full store -/

/-- A full store at capacity 1 holding a single expired entry. -/
def fullStoreW : LocalStorage ℕ := ⟨[("cropai_cache_/old", ⟨3, 0, 10⟩)], 1⟩

/-- Claim C8 counterexample: writing to a full store evicts the expired entries but
does not retry the write, so even though eviction freed all the space the new value is
absent afterwards; the claim says the write is retried after eviction. -/
theorem cacheSet_no_retry_cex :
    (cacheSet fullStoreW 100 "/kpi" 7 1000).items = [] ∧
    lookupEntry (cacheSet fullStoreW 100 "/kpi" 7 1000) (getCacheKey "/kpi") = none := by
  decide

/-- Claim C8 amended: set stores the value with timestamp now and expiry now + ttl when
the underlying write succeeds; when the write fails because the store is full, the
implementation evicts all expired entries and stops — the write is dropped silently
without retrying and without raising an error. -/
theorem cacheSet_spec {α : Type} (s : LocalStorage α) (now : ℕ) (endpoint : String)
    (data : α) (ttl : ℕ) :
    (∀ s2, setItem s (getCacheKey endpoint) ⟨data, now, now + ttl⟩ = some s2 →
      cacheSet s now endpoint data ttl = s2 ∧
      lookupEntry s2 (getCacheKey endpoint) = some ⟨data, now, now + ttl⟩) ∧
    (setItem s (getCacheKey endpoint) ⟨data, now, now + ttl⟩ = none →
      cacheSet s now endpoint data ttl = clearExpired s now) := by
  constructor
  · intro s2 h
    refine ⟨?_, lookupEntry_setItem s (getCacheKey endpoint) _ s2 h⟩
    unfold cacheSet
    rw [h]
  · intro h
    unfold cacheSet
    rw [h]

/-- A store with room for two entries. -/
def roomStoreW : LocalStorage ℕ := ⟨[], 2⟩

/-- Witness for the amended claim C8: a write into a store with room lands with
expiry now + ttl, and a write into the full store degrades to the expired sweep. -/
theorem cacheSet_spec_witness :
    cacheSet roomStoreW 100 "/kpi" 7 1000 =
      ⟨[("cropai_cache_/kpi", ⟨7, 1100, 1100⟩)], 2⟩ ∨
    (cacheSet roomStoreW 100 "/kpi" 7 1000 =
      ⟨[("cropai_cache_/kpi", ⟨7, 100, 1100⟩)], 2⟩ ∧
     lookupEntry (cacheSet roomStoreW 100 "/kpi" 7 1000) (getCacheKey "/kpi") =
      some ⟨7, 100, 1100⟩ ∧
     cacheSet fullStoreW 100 "/kpi" 7 1000 = clearExpired fullStoreW 100) := by
  have h1 := (cacheSet_spec roomStoreW 100 "/kpi" 7 1000).1
    ⟨[("cropai_cache_/kpi", ⟨7, 100, 1100⟩)], 2⟩ (by decide)
  have h2 := (cacheSet_spec fullStoreW 100 "/kpi" 7 1000).2 (by decide)
  exact Or.inr ⟨h1.1, h1.1 ▸ h1.2, h2⟩

/-! ## Claim C4: fingerprint determinism -/

theorem string_append_cancel_left (a b c : String) (h : a ++ b = a ++ c) : b = c := by
  have h2 : (a ++ b).data = (a ++ c).data := by rw [h]
  rw [String.data_append, String.data_append] at h2
  exact String.ext (List.append_cancel_left h2)

/-- Claim C4 counterexample: the same endpoint with the same query parameters supplied
in a different insertion order produces a different cache key, so the two requests use
distinct cache entries. -/
theorem fingerprint_order_cex :
    requestCacheKey "/soil-moisture/field-1" [("lat", "52"), ("lng", "-113")] ≠
      requestCacheKey "/soil-moisture/field-1" [("lng", "-113"), ("lat", "52")] ∧
    List.Perm [("lat", "52"), ("lng", "-113")] [("lng", "-113"), ("lat", "52")] := by
  constructor
  · decide
  · exact List.Perm.swap _ _ _

/-- Claim C4 amended: the cache key is the prefix plus the endpoint string verbatim, and
callers serialize query parameters in insertion order with no sorting; two requests for
the same path share a cache key exactly when their serialized query strings coincide,
so parameter order is significant. -/
theorem requestCacheKey_inj (path : String) (ps qs : List (String × String)) :
    requestCacheKey path ps = requestCacheKey path qs ↔
      serializeParams ps = serializeParams qs := by
  constructor
  · intro h
    unfold requestCacheKey getCacheKey at h
    have h1 := string_append_cancel_left _ _ _ h
    exact string_append_cancel_left (path ++ "?") _ _ h1
  · intro h
    unfold requestCacheKey getCacheKey
    rw [h]

/-! ## Grid rendering (components/dashboard/FarmMap.tsx, gridToGeoJSON) -/

/-- Geographic bounding box of a derived grid. -/
structure GridBounds where
  north : ℚ
  south : ℚ
  east : ℚ
  west : ℚ
deriving DecidableEq

/-- One output feature of gridToGeoJSON: a closed rectangular ring (GeoJSON polygon
coordinates, longitude first) plus the scalar value property of the cell. -/
structure GridCell where
  ring : List (ℚ × ℚ)
  value : ℚ
deriving DecidableEq

/-- The closed ring of an axis-aligned cell, in the vertex order the source emits. -/
def cellRing (w s e n : ℚ) : List (ℚ × ℚ) := [(w, s), (e, s), (e, n), (w, n), (w, s)]

/-- Column count of a grid (grid[0]?.length with 0 for an empty grid). -/
def gridCols (grid : List (List ℚ)) : ℕ := (grid.head?.map List.length).getD 0

/-- gridToGeoJSON: linearly subdivide the bounding box into rows x cols equal cells,
row 0 northernmost, each cell tagged with values[i][j] (0 when absent). -/
def gridToGeoJSON (grid : List (List ℚ)) (bounds : GridBounds) (values : List (List ℚ)) :
    List GridCell :=
  let rows := grid.length
  let cols := gridCols grid
  if rows = 0 ∨ cols = 0 then []
  else
    let cellLat := (bounds.north - bounds.south) / (rows : ℚ)
    let cellLng := (bounds.east - bounds.west) / (cols : ℚ)
    ((List.range rows).map (fun i =>
      (List.range cols).map (fun j =>
        { ring := cellRing (bounds.west + (j : ℚ) * cellLng)
            (bounds.north - ((i : ℚ) + 1) * cellLat)
            (bounds.west + ((j : ℚ) + 1) * cellLng)
            (bounds.north - (i : ℚ) * cellLat)
          value := ((values[i]?).bind (fun r => r[j]?)).getD 0 }))).flatten

/-- NDVI color scale (getNDVIColor): fixed 5-band step function. -/
def getNDVIColor (value : ℚ) : String :=
  if value < 2/10 then "#8B4513"
  else if value < 4/10 then "#DAA520"
  else if value < 6/10 then "#9ACD32"
  else if value < 8/10 then "#32CD32"
  else "#228B22"

/-- Stress color scale (getStressColor): fixed 4-threshold step function. -/
def getStressColor (value : ℚ) : String :=
  if value < 3/10 then "#22c55e"
  else if value < 5/10 then "#eab308"
  else if value < 7/10 then "#f97316"
  else "#ef4444"

/-! ## Flattened-grid indexing lemmas -/

theorem flatten_map_range_length {β : Type} (c n : ℕ) (f : ℕ → List β)
    (hf : ∀ k, (f k).length = c) :
    (((List.range n).map f).flatten).length = n * c := by
  rw [List.length_flatten, List.map_map]
  have hrep : (List.range n).map (List.length ∘ f) = List.replicate n c := by
    apply List.eq_replicate_iff.mpr
    refine ⟨by simp, ?_⟩
    intro b hb
    rcases List.mem_map.mp hb with ⟨a, _, rfl⟩
    exact hf a
  rw [hrep, List.sum_replicate, smul_eq_mul]

theorem flatten_map_range_get {β : Type} (c : ℕ) :
    ∀ (n : ℕ) (f : ℕ → List β), (∀ k, (f k).length = c) →
    ∀ i j, i < n → j < c →
    (((List.range n).map f).flatten)[i * c + j]? = (f i)[j]? := by
  intro n
  induction n with
  | zero =>
    intro f _ i j hi _
    exact absurd hi (Nat.not_lt_zero i)
  | succ n ih =>
    intro f hf i j hi hj
    rw [List.range_succ_eq_map, List.map_cons, List.flatten_cons, List.map_map]
    cases i with
    | zero =>
      rw [Nat.zero_mul, Nat.zero_add]
      exact List.getElem?_append_left (by rw [hf 0]; exact hj)
    | succ i =>
      have hmul : (i + 1) * c = i * c + c := Nat.succ_mul i c
      have hlen : (f 0).length ≤ (i + 1) * c + j := by
        rw [hf 0, hmul]
        omega
      rw [List.getElem?_append_right hlen]
      have hidx : (i + 1) * c + j - (f 0).length = i * c + j := by
        rw [hf 0, hmul]
        omega
      rw [hidx]
      exact ih (f ∘ Nat.succ) (fun k => hf (k + 1)) i j (Nat.lt_of_succ_lt_succ hi) hj

/-! ## Claim C6: grid-to-cells conversion -/

/-- Claim C6: the conversion yields exactly rows x cols cells; the cell at flattened
index i * cols + j is the axis-aligned rectangle obtained by linear equal subdivision
of the bounding box with row 0 northernmost, tagged with the scalar values[i][j]. -/
theorem gridToGeoJSON_spec (grid : List (List ℚ)) (bounds : GridBounds)
    (values : List (List ℚ)) :
    (gridToGeoJSON grid bounds values).length = grid.length * gridCols grid ∧
    (∀ i j, i < grid.length → j < gridCols grid →
      (gridToGeoJSON grid bounds values)[i * gridCols grid + j]? =
        some ⟨cellRing
            (bounds.west + (j : ℚ) * ((bounds.east - bounds.west) / (gridCols grid : ℚ)))
            (bounds.north - ((i : ℚ) + 1) * ((bounds.north - bounds.south) / (grid.length : ℚ)))
            (bounds.west + ((j : ℚ) + 1) * ((bounds.east - bounds.west) / (gridCols grid : ℚ)))
            (bounds.north - (i : ℚ) * ((bounds.north - bounds.south) / (grid.length : ℚ))),
          ((values[i]?).bind (fun r => r[j]?)).getD 0⟩) := by
  constructor
  · by_cases h : grid.length = 0 ∨ gridCols grid = 0
    · simp only [gridToGeoJSON, if_pos h]
      rcases h with h | h <;> rw [List.length_nil, h] <;> omega
    · simp only [gridToGeoJSON, if_neg h]
      exact flatten_map_range_length _ _ _ (fun k => by simp)
  · intro i j hi hj
    have hcond : ¬ (grid.length = 0 ∨ gridCols grid = 0) := by omega
    simp only [gridToGeoJSON, if_neg hcond]
    rw [flatten_map_range_get (gridCols grid) grid.length _ (fun k => by simp) i j hi hj]
    rw [List.getElem?_map, List.getElem?_range hj]
    rfl

/-- The NDVI example grid of the specification. -/
def gridW : List (List ℚ) := [[1/10, 5/10], [9/10, 3/10]]

/-- Unit-square bounds for the example grid. -/
def boundsW : GridBounds := ⟨1, 0, 1, 0⟩

/-- Witness for claim C6: the 2x2 example produces 4 cells; cell (row 0, col 0) spans
latitude 1/2..1 and longitude 0..1/2 tagged 1/10, and cell (row 0, col 1) is tagged
5/10. -/
theorem gridToGeoJSON_witness :
    (gridToGeoJSON gridW boundsW gridW).length = 4 ∧
    (gridToGeoJSON gridW boundsW gridW)[0]? =
      some ⟨[(0, 1/2), (1/2, 1/2), (1/2, 1), (0, 1), (0, 1/2)], 1/10⟩ ∧
    (gridToGeoJSON gridW boundsW gridW)[1]? =
      some ⟨[(1/2, 1/2), (1, 1/2), (1, 1), (1/2, 1), (1/2, 1/2)], 5/10⟩ := by
  have hspec := gridToGeoJSON_spec gridW boundsW gridW
  have h0 := hspec.2 0 0 (by norm_num [gridW]) (by norm_num [gridW, gridCols])
  have h1 := hspec.2 0 1 (by norm_num [gridW]) (by norm_num [gridW, gridCols])
  refine ⟨?_, ?_, ?_⟩
  · rw [hspec.1]
    rfl
  · refine h0.trans ?_
    rw [show gridCols gridW = 2 from rfl, show gridW.length = 2 from rfl]
    simp only [Option.some.injEq, GridCell.mk.injEq, cellRing, gridW, boundsW,
      List.cons.injEq, Prod.mk.injEq]
    norm_num
  · refine h1.trans ?_
    rw [show gridCols gridW = 2 from rfl, show gridW.length = 2 from rfl]
    simp only [Option.some.injEq, GridCell.mk.injEq, cellRing, gridW, boundsW,
      List.cons.injEq, Prod.mk.injEq]
    norm_num

/-! ## Claim C7: color bands -/

/-- Claim C7: the NDVI and stress color mappings are fixed 5-band step functions with
exactly the stated thresholds: NDVI 0..0.2 brown, 0.2..0.4 goldenrod, 0.4..0.6
yellow-green, 0.6..0.8 lime green, 0.8..1 forest green; stress 0..0.3 green, 0.3..0.5
yellow, 0.5..0.7 orange, 0.7..1 red (lower bounds inclusive, upper bounds exclusive
except the last band). -/
theorem color_bands_spec (v : ℚ) :
    (0 ≤ v → v < 2/10 → getNDVIColor v = "#8B4513") ∧
    (2/10 ≤ v → v < 4/10 → getNDVIColor v = "#DAA520") ∧
    (4/10 ≤ v → v < 6/10 → getNDVIColor v = "#9ACD32") ∧
    (6/10 ≤ v → v < 8/10 → getNDVIColor v = "#32CD32") ∧
    (8/10 ≤ v → v ≤ 1 → getNDVIColor v = "#228B22") ∧
    (0 ≤ v → v < 3/10 → getStressColor v = "#22c55e") ∧
    (3/10 ≤ v → v < 5/10 → getStressColor v = "#eab308") ∧
    (5/10 ≤ v → v < 7/10 → getStressColor v = "#f97316") ∧
    (7/10 ≤ v → v ≤ 1 → getStressColor v = "#ef4444") := by
  unfold getNDVIColor getStressColor
  refine ⟨?_, ?_, ?_, ?_, ?_, ?_, ?_, ?_, ?_⟩
  · intro _ h2
    rw [if_pos h2]
  · intro h1 h2
    rw [if_neg (by linarith), if_pos h2]
  · intro h1 h2
    rw [if_neg (by linarith), if_neg (by linarith), if_pos h2]
  · intro h1 h2
    rw [if_neg (by linarith), if_neg (by linarith), if_neg (by linarith), if_pos h2]
  · intro h1 _
    rw [if_neg (by linarith), if_neg (by linarith), if_neg (by linarith),
      if_neg (by linarith)]
  · intro _ h2
    rw [if_pos h2]
  · intro h1 h2
    rw [if_neg (by linarith), if_pos h2]
  · intro h1 h2
    rw [if_neg (by linarith), if_neg (by linarith), if_pos h2]
  · intro h1 _
    rw [if_neg (by linarith), if_neg (by linarith), if_neg (by linarith)]

/-- Witness for claim C7: sample values in four of the bands. -/
theorem color_bands_witness :
    getNDVIColor (1/10) = "#8B4513" ∧ getNDVIColor (9/10) = "#228B22" ∧
    getStressColor (4/10) = "#eab308" ∧ getStressColor (8/10) = "#ef4444" := by
  refine ⟨(color_bands_spec (1/10)).1 (by norm_num) (by norm_num),
    ((color_bands_spec (9/10)).2.2.2.2.1) (by norm_num) (by norm_num),
    ((color_bands_spec (4/10)).2.2.2.2.2.2.1) (by norm_num) (by norm_num),
    ((color_bands_spec (8/10)).2.2.2.2.2.2.2.2) (by norm_num) (by norm_num)⟩

/-! ## Dashboard store state (store/dashboardStore.ts) -/

/-- The active map overlay (type MapLayerType); nolayer embeds the source value none. -/
inductive MapLayer
  | boundaries
  | ndvi
  | stress
  | nolayer
deriving DecidableEq

/-- Status of a location search (field searchResult.status). -/
inductive SearchStatus
  | idle
  | searching
  | success
  | not_found
deriving DecidableEq

/-- A farm (interface Farm): identifier, display name, geographic point, optional
designated default crop. -/
structure Farm where
  id : String
  name : String
  lat : ℚ
  lng : ℚ
  defaultCropId : Option String
deriving DecidableEq

/-- A crop (interface Crop): identifier and display name. -/
structure Crop where
  id : String
  name : String
deriving DecidableEq

/-- A field boundary (interface FieldBoundary), reduced to the identifiers the store
transitions inspect; the polygon geometry is not consulted by any embedded operation. -/
structure FieldBoundary where
  id : String
  farmId : String
  cropId : String
deriving DecidableEq

/-- The searchResult record of the store. -/
structure SearchResult where
  status : SearchStatus
  message : Option String
  distance : Option ℚ
deriving DecidableEq

/-- The dashboard store state.  The payload type of the derived datasets (time series,
grids, KPI summaries) is a parameter: no embedded transition inspects payload
contents.  Per-field maps are association lists from field id to payload. -/
structure DashState (α : Type) where
  selectedFarm : Option Farm
  selectedCrop : Option Crop
  farms : List Farm
  crops : List Crop
  fieldBoundaries : List FieldBoundary
  kpiSummary : Option α
  ndviGrids : List (String × α)
  stressIndices : List (String × α)
  soilMoisture : List (String × α)
  yieldPrediction : List (String × α)
  carbonMetrics : List (String × α)
  activeMapLayer : MapLayer
  errorMsg : Option String
  filters : Option String × Option String
  locationInput : Option ℚ × Option ℚ
  mapCenter : Option (ℚ × ℚ)
  searchResult : Option SearchResult
deriving DecidableEq

/-- setSelectedFarm: replaces the selected farm, updates the farm filter, resets the
overlay to boundaries, clears the NDVI and stress maps and the KPI value, and mirrors
the farm location into the location input.  It does not touch selectedCrop nor the
soil-moisture, yield-prediction or carbon-metrics maps; the asynchronous boundary and
KPI reloads it may fire are separate later events. -/
def setSelectedFarm {α : Type} (st : DashState α) (farm : Option Farm) : DashState α :=
  { st with
    selectedFarm := farm
    filters := (farm.map Farm.id, st.filters.2)
    activeMapLayer := MapLayer.boundaries
    ndviGrids := []
    stressIndices := []
    kpiSummary := none
    locationInput := match farm with
      | some f => (some f.lat, some f.lng)
      | none => (none, none) }

/-- setSelectedCrop: the symmetric crop transition. -/
def setSelectedCrop {α : Type} (st : DashState α) (crop : Option Crop) : DashState α :=
  { st with
    selectedCrop := crop
    filters := (st.filters.1, crop.map Crop.id)
    activeMapLayer := MapLayer.boundaries
    ndviGrids := []
    stressIndices := []
    kpiSummary := none }

/-- Outcome of a background fetch: the promise resolves with a success envelope,
resolves with a non-success envelope status, or rejects. -/
inductive FetchResult (α : Type)
  | success (data : α)
  | errorStatus
  | failure
deriving DecidableEq

/-- Completion handler of the fresh background fetch in loadSoilMoisture: a success
envelope overwrites the per-field entry for the request's field id unconditionally; a
non-success status does nothing; a rejection is swallowed by an empty catch handler. -/
def soilMoistureStep {α : Type} (st : DashState α) (fieldId : String) (r : FetchResult α) :
    DashState α :=
  match r with
  | .success d => { st with soilMoisture := mapSet st.soilMoisture fieldId d }
  | .errorStatus => st
  | .failure => st

/-- Completion handler of the fresh background fetch in loadYieldPrediction. -/
def yieldPredictionStep {α : Type} (st : DashState α) (fieldId : String)
    (r : FetchResult α) : DashState α :=
  match r with
  | .success d => { st with yieldPrediction := mapSet st.yieldPrediction fieldId d }
  | .errorStatus => st
  | .failure => st

/-- Completion handler of the fresh background fetch in loadCarbonMetrics. -/
def carbonMetricsStep {α : Type} (st : DashState α) (fieldId : String)
    (r : FetchResult α) : DashState α :=
  match r with
  | .success d => { st with carbonMetrics := mapSet st.carbonMetrics fieldId d }
  | .errorStatus => st
  | .failure => st

/-- Completion handler of the fresh background KPI fetch in loadKPISummary. -/
def kpiStep {α : Type} (st : DashState α) (r : FetchResult α) : DashState α :=
  match r with
  | .success d => { st with kpiSummary := some d }
  | .errorStatus => st
  | .failure => st

/-- Phase one of loadSoilMoisture: if the synchronous cache read produced a success
envelope, publish it into the per-field map immediately. -/
def publishCachedSoilMoisture {α : Type} (st : DashState α) (fieldId : String)
    (cached : Option α) : DashState α :=
  match cached with
  | some d => { st with soilMoisture := mapSet st.soilMoisture fieldId d }
  | none => st

/-- Phase one of loadYieldPrediction. -/
def publishCachedYieldPrediction {α : Type} (st : DashState α) (fieldId : String)
    (cached : Option α) : DashState α :=
  match cached with
  | some d => { st with yieldPrediction := mapSet st.yieldPrediction fieldId d }
  | none => st

/-- Phase one of loadCarbonMetrics. -/
def publishCachedCarbonMetrics {α : Type} (st : DashState α) (fieldId : String)
    (cached : Option α) : DashState α :=
  match cached with
  | some d => { st with carbonMetrics := mapSet st.carbonMetrics fieldId d }
  | none => st

/-- Phase one of loadKPISummary. -/
def publishCachedKPI {α : Type} (st : DashState α) (cached : Option α) : DashState α :=
  match cached with
  | some d => { st with kpiSummary := some d }
  | none => st

/-- loadSoilMoisture as a state transition: the cached value (if any) is published
first, then the fresh background fetch completes with outcome r. -/
def loadSoilMoisture {α : Type} (st : DashState α) (fieldId : String) (cached : Option α)
    (r : FetchResult α) : DashState α :=
  soilMoistureStep (publishCachedSoilMoisture st fieldId cached) fieldId r

/-- loadYieldPrediction as a state transition. -/
def loadYieldPrediction {α : Type} (st : DashState α) (fieldId : String)
    (cached : Option α) (r : FetchResult α) : DashState α :=
  yieldPredictionStep (publishCachedYieldPrediction st fieldId cached) fieldId r

/-- loadCarbonMetrics as a state transition. -/
def loadCarbonMetrics {α : Type} (st : DashState α) (fieldId : String)
    (cached : Option α) (r : FetchResult α) : DashState α :=
  carbonMetricsStep (publishCachedCarbonMetrics st fieldId cached) fieldId r

/-- loadKPISummary as a state transition: a no-op that clears the KPI when farm or crop
is missing; otherwise cache-first publish followed by the background completion. -/
def loadKPISummary {α : Type} (st : DashState α) (cached : Option α) (r : FetchResult α) :
    DashState α :=
  if st.selectedFarm.isNone || st.selectedCrop.isNone then { st with kpiSummary := none }
  else kpiStep (publishCachedKPI st cached) r

/-- The empty initial store state at payload type ℕ, used by concrete scenarios. -/
def baseState : DashState ℕ :=
  { selectedFarm := none
    selectedCrop := none
    farms := []
    crops := []
    fieldBoundaries := []
    kpiSummary := none
    ndviGrids := []
    stressIndices := []
    soilMoisture := []
    yieldPrediction := []
    carbonMetrics := []
    activeMapLayer := MapLayer.boundaries
    errorMsg := none
    filters := (none, none)
    locationInput := (none, none)
    mapCenter := none
    searchResult := none }

/-! ## Claim C1: stale-response suppression -/

/-- Claim C1 counterexample: a soil-moisture success for field-A arriving while the
current boundary list is [field-B] is still written into the per-field soil-moisture
map; the completion handler has no relevance guard against superseded selections. -/
theorem stale_success_cex :
    mapGet (soilMoistureStep
        { baseState with fieldBoundaries := [⟨"field-B", "farm-1", "crop-1"⟩] }
        "field-A" (FetchResult.success 5)).soilMoisture "field-A" = some 5 ∧
    ({ baseState with fieldBoundaries := [⟨"field-B", "farm-1", "crop-1"⟩] } :
        DashState ℕ).fieldBoundaries.map FieldBoundary.id = ["field-B"] := by
  constructor
  · decide
  · decide

/-- Claim C1 amended: the background success handlers overwrite the per-field map
entry for the response's field id unconditionally, whether or not that field id is
still in the current boundary list; stale successes therefore do land in the maps the
UI reads (the NDVI and stress render path filters to current boundary ids separately,
and selection changes clear only the NDVI and stress maps). -/
theorem stale_success_amended {α : Type} (st : DashState α) (fieldId : String) (d : α) :
    mapGet (soilMoistureStep st fieldId (FetchResult.success d)).soilMoisture fieldId =
      some d ∧
    (soilMoistureStep st fieldId (FetchResult.success d)).fieldBoundaries =
      st.fieldBoundaries ∧
    mapGet (yieldPredictionStep st fieldId (FetchResult.success d)).yieldPrediction
      fieldId = some d ∧
    mapGet (carbonMetricsStep st fieldId (FetchResult.success d)).carbonMetrics
      fieldId = some d :=
  ⟨mapGet_mapSet_self _ _ _, rfl, mapGet_mapSet_self _ _ _, mapGet_mapSet_self _ _ _⟩

/-! ## Claim C2: setFarm atomicity -/

/-- The previously selected crop in the C2 scenario. -/
def cropOldW : Crop := ⟨"crop-2", "Timothy Hay"⟩

/-- The farm selected in the C2 scenario; its designated default crop is crop-1. -/
def farmOneW : Farm := ⟨"farm-1", "Hartland Colony", 52, -113, some "crop-1"⟩

/-- The C2 scenario state: crop-2 selected, one soil-moisture entry present. -/
def stC2 : DashState ℕ :=
  { baseState with selectedCrop := some cropOldW, soilMoisture := [("field-9", 3)] }

/-- Claim C2 counterexample: after setSelectedFarm with farm-1 (whose default crop is
crop-1), the state still pairs farm-1 with the previously selected crop-2, and the
soil-moisture per-field map is not cleared; the claim requires the default crop to be
selected and every per-field map to be empty. -/
theorem setFarm_cex :
    (setSelectedFarm stC2 (some farmOneW)).selectedCrop = some cropOldW ∧
    cropOldW.id = "crop-2" ∧
    farmOneW.defaultCropId = some "crop-1" ∧
    (setSelectedFarm stC2 (some farmOneW)).soilMoisture = [("field-9", 3)] :=
  ⟨rfl, rfl, rfl, rfl⟩

/-- Claim C2 amended: setSelectedFarm(F) sets the selected farm, resets the overlay to
boundaries, clears the NDVI and stress maps and the KPI value, and mirrors F's
location into the location input; it leaves the selected crop and the soil-moisture,
yield-prediction and carbon-metrics maps unchanged.  The default crop is applied
afterwards by the dashboard header in a separate zero-delay deferred update, so a
state pairing F with the previous crop is observable. -/
theorem setFarm_amended {α : Type} (st : DashState α) (f : Farm) :
    (setSelectedFarm st (some f)).selectedFarm = some f ∧
    (setSelectedFarm st (some f)).selectedCrop = st.selectedCrop ∧
    (setSelectedFarm st (some f)).activeMapLayer = MapLayer.boundaries ∧
    (setSelectedFarm st (some f)).ndviGrids = [] ∧
    (setSelectedFarm st (some f)).stressIndices = [] ∧
    (setSelectedFarm st (some f)).kpiSummary = none ∧
    (setSelectedFarm st (some f)).soilMoisture = st.soilMoisture ∧
    (setSelectedFarm st (some f)).yieldPrediction = st.yieldPrediction ∧
    (setSelectedFarm st (some f)).carbonMetrics = st.carbonMetrics ∧
    (setSelectedFarm st (some f)).locationInput = (some f.lat, some f.lng) ∧
    (setSelectedFarm st (some f)).fieldBoundaries = st.fieldBoundaries ∧
    (setSelectedFarm st (some f)).searchResult = st.searchResult :=
  ⟨rfl, rfl, rfl, rfl, rfl, rfl, rfl, rfl, rfl, rfl, rfl, rfl⟩

/-! ## Claim C9: silent failure of background loads -/

/-- Claim C9: when the fresh background fetch of a per-field load (soil moisture,
yield prediction, carbon metrics) or of the KPI refresh does not succeed, the
previously published value (cached or none) is left untouched and the user-visible
error state is never set. -/
theorem background_failure_spec {α : Type} (st : DashState α) (fieldId : String)
    (cached : Option α) (r : FetchResult α)
    (h : r = FetchResult.errorStatus ∨ r = FetchResult.failure) :
    (loadSoilMoisture st fieldId cached r).soilMoisture =
      (publishCachedSoilMoisture st fieldId cached).soilMoisture ∧
    (loadSoilMoisture st fieldId cached r).errorMsg = st.errorMsg ∧
    (loadYieldPrediction st fieldId cached r).yieldPrediction =
      (publishCachedYieldPrediction st fieldId cached).yieldPrediction ∧
    (loadYieldPrediction st fieldId cached r).errorMsg = st.errorMsg ∧
    (loadCarbonMetrics st fieldId cached r).carbonMetrics =
      (publishCachedCarbonMetrics st fieldId cached).carbonMetrics ∧
    (loadCarbonMetrics st fieldId cached r).errorMsg = st.errorMsg ∧
    (loadKPISummary st cached r).errorMsg = st.errorMsg ∧
    (st.selectedFarm.isSome → st.selectedCrop.isSome →
      (loadKPISummary st cached r).kpiSummary =
        (publishCachedKPI st cached).kpiSummary) := by
  have hpubSM : (publishCachedSoilMoisture st fieldId cached).errorMsg = st.errorMsg := by
    unfold publishCachedSoilMoisture
    cases cached <;> rfl
  have hpubYP : (publishCachedYieldPrediction st fieldId cached).errorMsg =
      st.errorMsg := by
    unfold publishCachedYieldPrediction
    cases cached <;> rfl
  have hpubCM : (publishCachedCarbonMetrics st fieldId cached).errorMsg =
      st.errorMsg := by
    unfold publishCachedCarbonMetrics
    cases cached <;> rfl
  have hpubKP : (publishCachedKPI st cached).errorMsg = st.errorMsg := by
    unfold publishCachedKPI
    cases cached <;> rfl
  have hsm : ∀ s2 : DashState α, soilMoistureStep s2 fieldId r = s2 := by
    intro s2
    rcases h with h | h <;> rw [h] <;> rfl
  have hyp2 : ∀ s2 : DashState α, yieldPredictionStep s2 fieldId r = s2 := by
    intro s2
    rcases h with h | h <;> rw [h] <;> rfl
  have hcm : ∀ s2 : DashState α, carbonMetricsStep s2 fieldId r = s2 := by
    intro s2
    rcases h with h | h <;> rw [h] <;> rfl
  have hkpi : ∀ s2 : DashState α, kpiStep s2 r = s2 := by
    intro s2
    rcases h with h | h <;> rw [h] <;> rfl
  refine ⟨?_, ?_, ?_, ?_, ?_, ?_, ?_, ?_⟩
  · unfold loadSoilMoisture
    rw [hsm]
  · unfold loadSoilMoisture
    rw [hsm]
    exact hpubSM
  · unfold loadYieldPrediction
    rw [hyp2]
  · unfold loadYieldPrediction
    rw [hyp2]
    exact hpubYP
  · unfold loadCarbonMetrics
    rw [hcm]
  · unfold loadCarbonMetrics
    rw [hcm]
    exact hpubCM
  · unfold loadKPISummary
    by_cases hg : (st.selectedFarm.isNone || st.selectedCrop.isNone) = true
    · rw [if_pos hg]
    · rw [if_neg hg, hkpi]
      exact hpubKP
  · intro hf hc
    rcases Option.isSome_iff_exists.mp hf with ⟨f, hfeq⟩
    rcases Option.isSome_iff_exists.mp hc with ⟨c, hceq⟩
    have hcond : (st.selectedFarm.isNone || st.selectedCrop.isNone) = false := by
      rw [hfeq, hceq]
      rfl
    unfold loadKPISummary
    rw [if_neg (by rw [hcond]; exact Bool.false_ne_true), hkpi]


/-! ## Nearest-farm search (store/dashboardStore.ts, findNearestFarm) -/

/-- The transcendental functions of the haversine formula, abstracted: every theorem
about the search is proved for an arbitrary evaluation of sin, cos, sqrt, atan2 and
pi, since floating-point trigonometry has no exact rational embedding. -/
structure TrigOracle where
  sin : ℚ → ℚ
  cos : ℚ → ℚ
  sqrt : ℚ → ℚ
  atan2 : ℚ → ℚ → ℚ
  pi : ℚ

/-- calculateDistance: the haversine composition of the source, over the oracle. -/
def calculateDistance (o : TrigOracle) (lat1 lng1 lat2 lng2 : ℚ) : ℚ :=
  let R : ℚ := 6371
  let dLat := (lat2 - lat1) * o.pi / 180
  let dLng := (lng2 - lng1) * o.pi / 180
  let a := o.sin (dLat / 2) * o.sin (dLat / 2) +
    o.cos (lat1 * o.pi / 180) * o.cos (lat2 * o.pi / 180) *
    (o.sin (dLng / 2) * o.sin (dLng / 2))
  let c := 2 * o.atan2 (o.sqrt a) (o.sqrt (1 - a))
  R * c

/-- One iteration of the farms.forEach loop: a farm strictly closer than the running
minimum (initially 50) becomes the new candidate. -/
def scanStep (dist : Farm → ℚ) (acc : Option Farm × ℚ) (farm : Farm) : Option Farm × ℚ :=
  if dist farm < acc.2 then (some farm, dist farm) else acc

/-- The full scan over the farm list with the 50 km initial threshold. -/
def scanNearest (dist : Farm → ℚ) (farms : List Farm) : Option Farm × ℚ :=
  farms.foldl (scanStep dist) (none, 50)

/-- The searching-in-progress search result. -/
def searchingResult : SearchResult :=
  ⟨SearchStatus.searching, some "Searching for nearest farm...", none⟩

/-- The not-found result of the empty-farm-list early return. -/
def noFarmsResult : SearchResult :=
  ⟨SearchStatus.not_found, some "No farms available to search", none⟩

/-- The not-found result when no farm lies within the 50 km radius. -/
def notFoundResult : SearchResult :=
  ⟨SearchStatus.not_found, some "No farm found within 50km radius", none⟩

/-- The success result recording the found farm and its distance. -/
def successResult (name : String) (d : ℚ) : SearchResult :=
  ⟨SearchStatus.success, some ("Found " ++ name), some d⟩

/-- findNearestFarm: set a searching status; report not-found untouched on an empty
farm list; otherwise scan all farms and either select the winner (recording the
success message and recentering the map to the searched point) or report not-found,
clear the farm and crop selection, and still recenter the map.  The zero-delay
deferred default-crop selection of the success path is a separate later event. -/
def findNearestFarm {α : Type} (o : TrigOracle) (st : DashState α) (lat lng : ℚ) :
    DashState α :=
  let dist := fun (farm : Farm) => calculateDistance o lat lng farm.lat farm.lng
  let st1 := { st with searchResult := some searchingResult }
  if st.farms.length = 0 then
    { st1 with searchResult := some noFarmsResult }
  else
    match scanNearest dist st.farms with
    | (some farm, minDist) =>
      let st2 := { st1 with searchResult := some (successResult farm.name minDist) }
      let st3 := setSelectedFarm st2 (some farm)
      { st3 with mapCenter := some (lat, lng) }
    | (none, _) =>
      let st2 := { st1 with searchResult := some notFoundResult }
      let st3 := setSelectedCrop (setSelectedFarm st2 none) none
      { st3 with mapCenter := some (lat, lng) }

/-! ## Scan lemmas -/

theorem scanFold_skip (dist : Farm → ℚ) (l : List Farm) (b : Option Farm) (m : ℚ)
    (h : ∀ g ∈ l, ¬ dist g < m) :
    l.foldl (scanStep dist) (b, m) = (b, m) := by
  induction l generalizing b with
  | nil => rfl
  | cons a l ih =>
    have ha : ¬ dist a < m := h a (List.mem_cons_self a l)
    rw [List.foldl_cons]
    rw [show scanStep dist (b, m) a = (b, m) from by
      unfold scanStep
      rw [if_neg ha]]
    exact ih b (fun g hg => h g (List.mem_cons_of_mem a hg))

theorem scanFold_cases (dist : Farm → ℚ) (l : List Farm) :
    ∀ (b : Option Farm) (m : ℚ),
      l.foldl (scanStep dist) (b, m) = (b, m) ∨
      ∃ g, g ∈ l ∧ l.foldl (scanStep dist) (b, m) = (some g, dist g) ∧ dist g < m := by
  induction l with
  | nil =>
    intro b m
    exact Or.inl rfl
  | cons a l ih =>
    intro b m
    by_cases ha : dist a < m
    · have hstep : (a :: l).foldl (scanStep dist) (b, m) =
          l.foldl (scanStep dist) (some a, dist a) := by
        rw [List.foldl_cons]
        rw [show scanStep dist (b, m) a = (some a, dist a) from by
          unfold scanStep
          rw [if_pos ha]]
      rcases ih (some a) (dist a) with h1 | ⟨g, hg, heq, hlt⟩
      · exact Or.inr ⟨a, List.mem_cons_self a l, by rw [hstep, h1], ha⟩
      · exact Or.inr ⟨g, List.mem_cons_of_mem a hg, by rw [hstep, heq], lt_trans hlt ha⟩
    · have hstep : (a :: l).foldl (scanStep dist) (b, m) =
          l.foldl (scanStep dist) (b, m) := by
        rw [List.foldl_cons]
        rw [show scanStep dist (b, m) a = (b, m) from by
          unfold scanStep
          rw [if_neg ha]]
      rcases ih b m with h1 | ⟨g, hg, heq, hlt⟩
      · exact Or.inl (by rw [hstep, h1])
      · exact Or.inr ⟨g, List.mem_cons_of_mem a hg, by rw [hstep, heq], hlt⟩

theorem scanNearest_first_min (dist : Farm → ℚ) (l₁ : List Farm) (f : Farm)
    (l₂ : List Farm) (hf : dist f < 50)
    (hbef : ∀ g ∈ l₁, dist f < dist g)
    (haft : ∀ g ∈ l₂, dist f ≤ dist g) :
    scanNearest dist (l₁ ++ f :: l₂) = (some f, dist f) := by
  unfold scanNearest
  rw [List.foldl_append]
  have hmid : ∀ b : Option Farm, ∀ m : ℚ, dist f < m →
      (f :: l₂).foldl (scanStep dist) (b, m) = (some f, dist f) := by
    intro b m hm
    rw [List.foldl_cons]
    rw [show scanStep dist (b, m) f = (some f, dist f) from by
      unfold scanStep
      rw [if_pos hm]]
    exact scanFold_skip dist l₂ (some f) (dist f)
      (fun g hg => not_lt.mpr (haft g hg))
  rcases scanFold_cases dist l₁ none 50 with h1 | ⟨g, hg, heq, hlt⟩
  · rw [h1]
    exact hmid none 50 hf
  · rw [heq]
    exact hmid (some g) (dist g) (hbef g hg)

theorem scanNearest_none (dist : Farm → ℚ) (l : List Farm)
    (h : ∀ g ∈ l, ¬ dist g < 50) : scanNearest dist l = (none, 50) :=
  scanFold_skip dist l none 50 h

/-! ## Claim C5: nearest-farm selection -/

/-- Claim C5: on a nonempty farm list, findNearestFarm selects the minimum-distance
farm exactly when that distance is strictly below 50 km, with the first farm in
iteration order winning exact ties (expressed by splitting the list around the first
farm attaining the minimum); otherwise it reports not-found, clears the farm and crop
selection, and still recenters the map to the searched point.  The distance is the
haversine composition evaluated through the trig oracle. -/
theorem findNearestFarm_spec {α : Type} (o : TrigOracle) (st : DashState α)
    (lat lng : ℚ) :
    (∀ l₁ f l₂, st.farms = l₁ ++ f :: l₂ →
      calculateDistance o lat lng f.lat f.lng < 50 →
      (∀ g ∈ l₁, calculateDistance o lat lng f.lat f.lng <
        calculateDistance o lat lng g.lat g.lng) →
      (∀ g ∈ l₂, calculateDistance o lat lng f.lat f.lng ≤
        calculateDistance o lat lng g.lat g.lng) →
      (findNearestFarm o st lat lng).selectedFarm = some f ∧
      (findNearestFarm o st lat lng).searchResult =
        some ⟨SearchStatus.success, some ("Found " ++ f.name),
          some (calculateDistance o lat lng f.lat f.lng)⟩ ∧
      (findNearestFarm o st lat lng).mapCenter = some (lat, lng)) ∧
    (st.farms ≠ [] →
      (∀ g ∈ st.farms, ¬ calculateDistance o lat lng g.lat g.lng < 50) →
      (findNearestFarm o st lat lng).selectedFarm = none ∧
      (findNearestFarm o st lat lng).selectedCrop = none ∧
      (findNearestFarm o st lat lng).searchResult =
        some ⟨SearchStatus.not_found, some "No farm found within 50km radius", none⟩ ∧
      (findNearestFarm o st lat lng).mapCenter = some (lat, lng)) := by
  constructor
  · intro l₁ f l₂ hsplit hf50 hbef haft
    have hlen : ¬ st.farms.length = 0 := by
      rw [hsplit, List.length_append, List.length_cons]
      omega
    have hscan : scanNearest
        (fun farm : Farm => calculateDistance o lat lng farm.lat farm.lng) st.farms =
        (some f, calculateDistance o lat lng f.lat f.lng) := by
      rw [hsplit]
      exact scanNearest_first_min _ l₁ f l₂ hf50 hbef haft
    simp only [findNearestFarm]
    rw [if_neg hlen, hscan]
    exact ⟨rfl, rfl, rfl⟩
  · intro hne hall
    have hlen : ¬ st.farms.length = 0 := by
      intro h0
      exact hne (List.length_eq_zero.mp h0)
    have hscan : scanNearest
        (fun farm : Farm => calculateDistance o lat lng farm.lat farm.lng) st.farms =
        (none, 50) :=
      scanNearest_none _ st.farms hall
    simp only [findNearestFarm]
    rw [if_neg hlen, hscan]
    exact ⟨rfl, rfl, rfl, rfl⟩

/-- A trig oracle with simple exact evaluations, for concrete witnesses. -/
def trigW : TrigOracle := ⟨fun x => x, fun _ => 0, fun x => x, fun y _ => y, 180⟩

/-- A farm at the searched point (distance 0 under trigW). -/
def farmNearW : Farm := ⟨"farm-n", "Near", 0, 0, none⟩

/-- A farm two degrees of latitude away (distance 12742 under trigW). -/
def farmFarW : Farm := ⟨"farm-f", "Far", 2, 0, none⟩

/-- The C5 scenario: the far farm precedes the near farm in iteration order. -/
def stC5 : DashState ℕ := { baseState with farms := [farmFarW, farmNearW] }

/-- Witness for claim C5: searching at the origin selects the near farm and recenters
the map to the searched point. -/
theorem findNearestFarm_witness :
    (findNearestFarm trigW stC5 0 0).selectedFarm = some farmNearW ∧
    (findNearestFarm trigW stC5 0 0).mapCenter = some (0, 0) := by
  have h := (findNearestFarm_spec trigW stC5 0 0).1 [farmFarW] farmNearW [] rfl
    (by norm_num [calculateDistance, trigW, farmNearW])
    (by
      intro g hg
      rw [List.mem_singleton] at hg
      subst hg
      norm_num [calculateDistance, trigW, farmNearW, farmFarW])
    (by
      intro g hg
      exact absurd hg (List.not_mem_nil g))
  exact ⟨h.1, h.2.2⟩

/-! ## Claim C10: empty-farm-list frame -/

/-- Claim C10: with an empty farm list, findNearestFarm reports not-found and leaves
the selected farm, selected crop and map center unchanged; with a nonempty list and no
farm within 50 km, it instead clears the farm and crop selection and recenters the map
to the searched point. -/
theorem findNearest_empty_frame {α : Type} (o : TrigOracle) (st : DashState α)
    (lat lng : ℚ) :
    (st.farms = [] →
      (findNearestFarm o st lat lng).selectedFarm = st.selectedFarm ∧
      (findNearestFarm o st lat lng).selectedCrop = st.selectedCrop ∧
      (findNearestFarm o st lat lng).mapCenter = st.mapCenter ∧
      (findNearestFarm o st lat lng).searchResult =
        some ⟨SearchStatus.not_found, some "No farms available to search", none⟩) ∧
    (st.farms ≠ [] →
      (∀ g ∈ st.farms, ¬ calculateDistance o lat lng g.lat g.lng < 50) →
      (findNearestFarm o st lat lng).selectedFarm = none ∧
      (findNearestFarm o st lat lng).selectedCrop = none ∧
      (findNearestFarm o st lat lng).mapCenter = some (lat, lng)) := by
  constructor
  · intro h
    have hlen : st.farms.length = 0 := by
      rw [h]
      rfl
    simp only [findNearestFarm]
    rw [if_pos hlen]
    exact ⟨rfl, rfl, rfl, rfl⟩
  · intro hne hall
    have hlen : ¬ st.farms.length = 0 := by
      intro h0
      exact hne (List.length_eq_zero.mp h0)
    have hscan : scanNearest
        (fun farm : Farm => calculateDistance o lat lng farm.lat farm.lng) st.farms =
        (none, 50) :=
      scanNearest_none _ st.farms hall
    simp only [findNearestFarm]
    rw [if_neg hlen, hscan]
    exact ⟨rfl, rfl, rfl⟩

/-- The C10 scenario: an empty farm list with a farm, a crop and a map center already
present in the state. -/
def stC10 : DashState ℕ :=
  { baseState with
    selectedFarm := some farmOneW
    selectedCrop := some cropOldW
    mapCenter := some (9, 9) }

/-- Witness for claim C10: searching with no farms loaded reports not-found and leaves
the previous selection and map center in place. -/
theorem findNearest_empty_witness :
    (findNearestFarm trigW stC10 1 2).selectedFarm = some farmOneW ∧
    (findNearestFarm trigW stC10 1 2).selectedCrop = some cropOldW ∧
    (findNearestFarm trigW stC10 1 2).mapCenter = some (9, 9) ∧
    (findNearestFarm trigW stC10 1 2).searchResult =
      some ⟨SearchStatus.not_found, some "No farms available to search", none⟩ := by
  have h := (findNearest_empty_frame trigW stC10 1 2).1 rfl
  exact ⟨h.1.trans rfl, h.2.1.trans rfl, h.2.2.1.trans rfl, h.2.2.2⟩

/-- The C9 scenario: farm and crop selected, one soil-moisture entry published. -/
def stC9 : DashState ℕ :=
  { baseState with
    selectedFarm := some farmOneW
    selectedCrop := some cropOldW
    soilMoisture := [("f1", 9)] }

/-- Witness for claim C9: a rejected background fetch leaves every published value and
the error state of the concrete scenario untouched. -/
theorem background_failure_witness :
    (loadSoilMoisture stC9 "f1" (some 4) FetchResult.failure).soilMoisture =
      (publishCachedSoilMoisture stC9 "f1" (some 4)).soilMoisture ∧
    (loadSoilMoisture stC9 "f1" (some 4) FetchResult.failure).errorMsg = none ∧
    (loadKPISummary stC9 (some 4) FetchResult.failure).kpiSummary =
      (publishCachedKPI stC9 (some 4)).kpiSummary := by
  have h := background_failure_spec stC9 "f1" (some 4) FetchResult.failure (Or.inr rfl)
  exact ⟨h.1, h.2.1.trans rfl, h.2.2.2.2.2.2.2 rfl rfl⟩

end CropAI
